import Mathlib

/-!
Shallow embedding of the invoice server actions of this repository.

Two source files define the actions:
  * `src/unnamed/part_000` (embedded in namespace `Part000`): `createInvoice`
    with zod `safeParse` validation and try/catch around the INSERT,
    `updateInvoice` with zod `parse` (throws on invalid input), a
    `deleteInvoice` that unconditionally throws before its delete logic,
    and `authenticate` delegating to the `signIn` collaborator.
  * `src/app/lib/actions.ts` (embedded in namespace `AppLib`): an earlier
    version; only its `deleteInvoice` is needed by the claims.

Modelling conventions:
  * `FormData` holds the three fields the actions read via `formData.get`;
    a missing field is `none` (JS `null`).
  * JS numbers are modelled as `ℚ`; `Number(string)` conversion is modelled
    by `jsNumberOfString`, restricted to plain decimal notation (optional
    sign, digits, optional fraction), which covers every input the claims
    use; inputs outside that fragment yield `none` (NaN).
  * Database calls, cache revalidation are recorded as an `Effect` trace;
    redirects and thrown exceptions are terminal `Outcome`s.
  * Whether the single SQL statement of an action fails is an environment
    choice, passed in as `dbFail : Option JsError` (`some e` means the
    statement raised `e`).
  * The current date string `new Date().toISOString().split('T')[0]` is an
    environment input, passed in as `today`.
-/

/-- The raw form input read by the actions: `formData.get` returns the field
string or JS `null` (modelled as `none`). -/
structure FormData where
  customerId : Option String
  amount : Option String
  status : Option String
deriving DecidableEq, Repr

/-- JS whitespace characters stripped by `Number()` string conversion. -/
def isJsSpace (c : Char) : Bool :=
  c = ' ' ∨ c = '\t' ∨ c = '\n' ∨ c = '\r'

/-- Strip leading and trailing JS whitespace. -/
def trimChars (cs : List Char) : List Char :=
  ((cs.dropWhile isJsSpace).reverse.dropWhile isJsSpace).reverse

/-- Value of a digit string; `none` if any character is not a digit.
The empty list has value 0 (matching JS, where `Number("5.")` is 5). -/
def digitsVal? (cs : List Char) : Option ℕ :=
  cs.foldl
    (fun acc c =>
      match acc with
      | some n => if c.isDigit then some (10 * n + (c.toNat - 48)) else none
      | none => none)
    (some 0)

/-- JS `Number(s)` for a string, on the plain-decimal fragment: optional
sign, integer digits, optional fractional digits. `""` is 0; anything
malformed is NaN, modelled as `none`. Caveat: the result is the exact
rational value of the decimal string, whereas the program rounds it to the
nearest binary64 double (and rounds again at every arithmetic operation);
no theorem below may therefore assert exactness properties of the
program's floating-point values beyond those exactly representable. -/
def jsNumberOfString (s : String) : Option ℚ :=
  let cs := trimChars s.data
  if cs = [] then some 0
  else
    let sgn : ℚ := match cs with
      | '-' :: _ => -1
      | _ => 1
    let body : List Char := match cs with
      | '-' :: t => t
      | '+' :: t => t
      | t => t
    let ip := body.takeWhile (fun c => c ≠ '.')
    match body.dropWhile (fun c => c ≠ '.') with
    | [] =>
        if ip = [] then none
        else (digitsVal? ip).map (fun n => sgn * (n : ℚ))
    | '.' :: fp =>
        if fp.any (fun c => c = '.') then none
        else if ip = [] ∧ fp = [] then none
        else
          match digitsVal? ip, digitsVal? fp with
          | some i, some f =>
              some (sgn * ((i : ℚ) + (f : ℚ) / (10 : ℚ) ^ fp.length))
          | _, _ => none
    | _ => none

/-- `z.coerce.number()` input conversion: JS `Number(x)` where `x` is the
value returned by `formData.get` (`Number(null)` is 0). -/
def coerceNumber : Option String → Option ℚ
  | none => some 0
  | some s => jsNumberOfString s

/-- The per-field error lists produced by `validatedFields.error.flatten().fieldErrors`.
An empty list means the field has no error (the JS object omits the key). -/
structure FieldErrors where
  customerId : List String
  amount : List String
  status : List String
deriving DecidableEq, Repr

/-- The validated data `{customerId, amount, status}` produced by the schema. -/
structure InvoiceFields where
  customerId : String
  amount : ℚ
  status : String
deriving DecidableEq, Repr

/-- Result of zod `safeParse`: validated data or field errors. -/
inductive SafeParseResult (α : Type) where
  | success (data : α)
  | failure (errors : FieldErrors)
deriving DecidableEq, Repr

/-- Issues for `customerId : z.string({invalid_type_error: ...})`:
a non-string (JS `null`) input is an invalid-type error. -/
def customerIdIssues : Option String → List String
  | none => ["Please select a customer."]
  | some _ => []

/-- Issues for `amount : z.coerce.number().gt(0, ...)`: NaN coercion is an
invalid-type error (zod default message), a coerced value not greater than 0
fails the `gt` check with the configured message. -/
def amountIssues (v : Option String) : List String :=
  match coerceNumber v with
  | none => ["Expected number, received nan"]
  | some q => if 0 < q then [] else ["Please enter an amount greater than $0."]

/-- Issues for `status : z.enum(['pending','paid'], {invalid_type_error: ...})`:
`null` is an invalid-type error with the configured message; a string outside
the enumeration is an invalid-enum-value error with the zod default message. -/
def statusIssues : Option String → List String
  | none => ["Please select an invoice status."]
  | some s =>
      if s = "pending" ∨ s = "paid" then []
      else ["Invalid enum value. Expected \x27pending\x27 | \x27paid\x27, received \x27" ++ s ++ "\x27"]

/-- The flattened field errors of the schema on a given form input. -/
def formFieldErrors (fd : FormData) : FieldErrors :=
  ⟨customerIdIssues fd.customerId, amountIssues fd.amount, statusIssues fd.status⟩

/-- `CreateInvoice.safeParse` where `CreateInvoice = FormSchema.omit({id, date})`:
succeeds with the typed record exactly when every field validates, otherwise
fails with the collected field errors. -/
def CreateInvoiceSafeParse (fd : FormData) : SafeParseResult InvoiceFields :=
  match fd.customerId, coerceNumber fd.amount, fd.status with
  | some cid, some q, some st =>
      if 0 < q ∧ (st = "pending" ∨ st = "paid") then
        SafeParseResult.success ⟨cid, q, st⟩
      else SafeParseResult.failure (formFieldErrors fd)
  | _, _, _ => SafeParseResult.failure (formFieldErrors fd)

/-- `UpdateInvoice = FormSchema.omit({id: true, date: true})` is constructed
separately in the source but is the same schema as `CreateInvoice`. -/
def UpdateInvoiceSafeParse : FormData → SafeParseResult InvoiceFields :=
  CreateInvoiceSafeParse

/-- Thrown JS errors the embedding distinguishes: a zod `ZodError` (thrown by
`parse`), a plain `Error(message)`, a next-auth `AuthError` with its `type`
discriminant, and any other error. -/
inductive JsError where
  | zodError (errors : FieldErrors)
  | plainError (message : String)
  | authError (t : String)
  | otherError (tag : String)
deriving DecidableEq, Repr

/-- Observable external calls an action issues, in order. -/
inductive Effect where
  | insertInvoice (customerId : String) (amountCents : ℚ) (status : String) (date : String)
  | updateInvoice (customerId : String) (amountCents : ℚ) (status : String) (id : String)
  | deleteInvoice (id : String)
  | revalidatePath (path : String)
deriving DecidableEq, Repr

/-- How an action invocation terminates: a normal return value, a framework
redirect (thrown control flow, modelled as its own terminal outcome), or an
uncaught exception. -/
inductive Outcome (α : Type) where
  | ret (value : α)
  | redirectTo (path : String)
  | thrown (e : JsError)
deriving DecidableEq, Repr

/-- The `State` return shape `{errors?, message?}` of the actions. -/
structure State where
  errors : Option FieldErrors
  message : Option String
deriving DecidableEq, Repr

/-- A row of the `invoices` table. -/
structure InvoiceRow where
  id : String
  customer_id : String
  amount : ℚ
  status : String
  date : String
deriving DecidableEq, Repr

/-- Semantics of `DELETE FROM invoices WHERE id = ${id}`. -/
def runDelete (id : String) (store : List InvoiceRow) : List InvoiceRow :=
  store.filter (fun r => r.id ≠ id)

/-- Semantics of
`UPDATE invoices SET customer_id = _, amount = _, status = _ WHERE id = ${id}`:
only the three assigned columns of matching rows change. -/
def runUpdate (customerId : String) (amountCents : ℚ) (status : String)
    (id : String) (store : List InvoiceRow) : List InvoiceRow :=
  store.map (fun r =>
    if r.id = id then
      { r with customer_id := customerId, amount := amountCents, status := status }
    else r)

/-- Semantics of one effect on the invoices table; `freshId` is the id the
database assigns to an inserted row. -/
def applyEffect (freshId : String) (store : List InvoiceRow) : Effect → List InvoiceRow
  | Effect.insertInvoice cid amt st d => store ++ [⟨freshId, cid, amt, st, d⟩]
  | Effect.updateInvoice cid amt st id => runUpdate cid amt st id store
  | Effect.deleteInvoice id => runDelete id store
  | Effect.revalidatePath _ => store

namespace Part000

/-- `createInvoice(prevState, formData)` of `src/unnamed/part_000`:
safeParse; on failure return errors and the missing-fields message with no
database call; on success insert `amount * 100` cents with the current date
inside try/catch, then revalidate and redirect outside it. -/
def createInvoice (dbFail : Option JsError) (today : String) (prevState : State)
    (fd : FormData) : List Effect × Outcome State :=
  match CreateInvoiceSafeParse fd with
  | SafeParseResult.failure errs =>
      ([], Outcome.ret ⟨some errs, some "Missing Fields. Failed to Create Invoice."⟩)
  | SafeParseResult.success data =>
      let amountInCents := data.amount * 100
      let ins := Effect.insertInvoice data.customerId amountInCents data.status today
      match dbFail with
      | some _ =>
          ([ins], Outcome.ret ⟨none, some "Database Error: Failed to Create Invoice."⟩)
      | none =>
          ([ins, Effect.revalidatePath "/dashboard/invoices"],
           Outcome.redirectTo "/dashboard/invoices")

/-- `updateInvoice(id, formData)` of `src/unnamed/part_000`: uses
`UpdateInvoice.parse`, which throws a `ZodError` on invalid input (no
structured-error early return); on success issues the UPDATE inside
try/catch, then revalidates and redirects. -/
def updateInvoice (dbFail : Option JsError) (id : String) (fd : FormData) :
    List Effect × Outcome State :=
  match UpdateInvoiceSafeParse fd with
  | SafeParseResult.failure errs => ([], Outcome.thrown (JsError.zodError errs))
  | SafeParseResult.success data =>
      let amountInCents := data.amount * 100
      let upd := Effect.updateInvoice data.customerId amountInCents data.status id
      match dbFail with
      | some _ =>
          ([upd], Outcome.ret ⟨none, some "Database Error: Failed to Update Invoice."⟩)
      | none =>
          ([upd, Effect.revalidatePath "/dashboard/invoices"],
           Outcome.redirectTo "/dashboard/invoices")

/-- `deleteInvoice(id)` of `src/unnamed/part_000`: the first statement is
`throw new Error('Failed to Delete Invoice')`, so the function throws before
doing anything else; its try/catch delete logic (embedded separately as
`deleteInvoiceAfterThrow`) is dead code. -/
def deleteInvoice (id : String) : List Effect × Outcome State :=
  ([], Outcome.thrown (JsError.plainError "Failed to Delete Invoice"))

/-- The dead code below the unconditional throw in `deleteInvoice` of
`src/unnamed/part_000`: DELETE inside try/catch, revalidate, and the two
return-message branches. -/
def deleteInvoiceAfterThrow (dbFail : Option JsError) (id : String) :
    List Effect × Outcome State :=
  match dbFail with
  | some _ =>
      ([Effect.deleteInvoice id],
       Outcome.ret ⟨none, some "Database Error: Failed to Delete Invoice."⟩)
  | none =>
      ([Effect.deleteInvoice id, Effect.revalidatePath "/dashboard/invoices"],
       Outcome.ret ⟨none, some "Deleted Invoice."⟩)

/-- `authenticate(prevState, formData)` of `src/unnamed/part_000`: calls
`signIn('credentials', formData)`; the environment input `signInResult` is
`none` when `signIn` succeeds and `some e` when it raises `e`. An `AuthError`
is classified by its `type` discriminant; every other error is re-thrown. -/
def authenticate (signInResult : Option JsError) : Outcome (Option String) :=
  match signInResult with
  | none => Outcome.ret none
  | some (JsError.authError t) =>
      if t = "CredentialsSignin" then Outcome.ret (some "Invalid credentials.")
      else Outcome.ret (some "Something went wrong.")
  | some e => Outcome.thrown e

end Part000

namespace AppLib

/-- `deleteInvoice(id)` of `src/app/lib/actions.ts`: DELETE by id with no
try/catch (a database failure propagates), then revalidate the listing path;
returns nothing. -/
def deleteInvoice (dbFail : Option JsError) (id : String) :
    List Effect × Outcome Unit :=
  match dbFail with
  | some e => ([Effect.deleteInvoice id], Outcome.thrown e)
  | none =>
      ([Effect.deleteInvoice id, Effect.revalidatePath "/dashboard/invoices"],
       Outcome.ret ())

end AppLib

/-! ## Theorems -/

/-- Evaluation of the schema on the spec's valid sample input: `"10.50"`
coerces to the rational 21/2. -/
theorem CreateInvoiceSafeParse_c1_eval :
    CreateInvoiceSafeParse ⟨some "C1", some "10.50", some "pending"⟩ =
      SafeParseResult.success ⟨"C1", (21 : ℚ)/2, "pending"⟩ := by
  simp +decide [CreateInvoiceSafeParse, coerceNumber, jsNumberOfString,
    trimChars, digitsVal?, isJsSpace]
  norm_num

/-- C1: for the valid form input {customerId: "C1", amount: "10.50",
status: "pending"}, createInvoice converts the amount to exactly 1050 cents,
issues exactly one INSERT carrying that customerId, 1050, "pending" and the
current date, then revalidates /dashboard/invoices and redirects there. -/
theorem createInvoice_c1_valid_input (today : String) (prevState : State) :
    Part000.createInvoice none today prevState
        ⟨some "C1", some "10.50", some "pending"⟩ =
      ([Effect.insertInvoice "C1" 1050 "pending" today,
        Effect.revalidatePath "/dashboard/invoices"],
       Outcome.redirectTo "/dashboard/invoices") := by
  simp only [Part000.createInvoice, CreateInvoiceSafeParse_c1_eval]
  norm_num

/-- C2: whenever the amount field coerces to a number not greater than 0,
createInvoice returns the missing-fields message with a field error on
amount saying "Please enter an amount greater than $0.", and issues no
database call (empty effect trace). -/
theorem createInvoice_nonpositive_amount_rejected (dbFail : Option JsError)
    (today : String) (prevState : State) (fd : FormData) (q : ℚ)
    (hq : coerceNumber fd.amount = some q) (hle : q ≤ 0) :
    Part000.createInvoice dbFail today prevState fd =
      ([], Outcome.ret ⟨some (formFieldErrors fd),
        some "Missing Fields. Failed to Create Invoice."⟩) ∧
    (formFieldErrors fd).amount = ["Please enter an amount greater than $0."] := by
  have hq0 : ¬ (0 : ℚ) < q := not_lt.mpr hle
  have hai : amountIssues fd.amount = ["Please enter an amount greater than $0."] := by
    simp [amountIssues, hq, hq0]
  have hparse : CreateInvoiceSafeParse fd =
      SafeParseResult.failure (formFieldErrors fd) := by
    rcases fd with ⟨c, a, s⟩
    simp only at hq
    cases c <;> cases s <;> simp [CreateInvoiceSafeParse, hq, hq0]
  refine ⟨by simp [Part000.createInvoice, hparse], ?_⟩
  simp [formFieldErrors, hai]

/-- Witness for C2 at amount "0" (which coerces to 0 ≤ 0). -/
theorem createInvoice_nonpositive_amount_rejected_witness :
    Part000.createInvoice none "2024-05-01" ⟨none, none⟩
        ⟨some "C1", some "0", some "pending"⟩ =
      ([], Outcome.ret ⟨some ⟨[], ["Please enter an amount greater than $0."], []⟩,
        some "Missing Fields. Failed to Create Invoice."⟩) := by
  have h := createInvoice_nonpositive_amount_rejected none "2024-05-01" ⟨none, none⟩
      ⟨some "C1", some "0", some "pending"⟩ 0
      (by simp +decide [coerceNumber, jsNumberOfString, trimChars, digitsVal?, isJsSpace])
      le_rfl
  rw [h.1]
  have he : formFieldErrors ⟨some "C1", some "0", some "pending"⟩ =
      ⟨[], ["Please enter an amount greater than $0."], []⟩ := by
    simp +decide [formFieldErrors, customerIdIssues, amountIssues, statusIssues,
      coerceNumber, jsNumberOfString, trimChars, digitsVal?, isJsSpace]
  rw [he]

/-- C3: when the INSERT raises, createInvoice catches it and returns exactly
{message: "Database Error: Failed to Create Invoice."} (no errors field);
the trace holds the attempted INSERT only — no revalidation, and the outcome
is a return, not a redirect. -/
theorem createInvoice_db_error_caught (e : JsError) (today : String)
    (prevState : State) (fd : FormData) (data : InvoiceFields)
    (h : CreateInvoiceSafeParse fd = SafeParseResult.success data) :
    Part000.createInvoice (some e) today prevState fd =
      ([Effect.insertInvoice data.customerId (data.amount * 100) data.status today],
       Outcome.ret ⟨none, some "Database Error: Failed to Create Invoice."⟩) := by
  simp [Part000.createInvoice, h]

/-- Witness for C3 at the valid sample input with a failing INSERT. -/
theorem createInvoice_db_error_caught_witness :
    Part000.createInvoice (some (JsError.otherError "db")) "2024-05-01" ⟨none, none⟩
        ⟨some "C1", some "10.50", some "pending"⟩ =
      ([Effect.insertInvoice "C1" 1050 "pending" "2024-05-01"],
       Outcome.ret ⟨none, some "Database Error: Failed to Create Invoice."⟩) := by
  have h := createInvoice_db_error_caught (JsError.otherError "db") "2024-05-01"
      ⟨none, none⟩ ⟨some "C1", some "10.50", some "pending"⟩
      ⟨"C1", (21 : ℚ)/2, "pending"⟩ CreateInvoiceSafeParse_c1_eval
  rw [h]
  norm_num

/-- C4: on any form input the schema rejects, updateInvoice throws the
ZodError raised by parse — no structured field-error return — and issues no
database call (empty effect trace). -/
theorem updateInvoice_invalid_input_throws (dbFail : Option JsError) (id : String)
    (fd : FormData) (errs : FieldErrors)
    (h : UpdateInvoiceSafeParse fd = SafeParseResult.failure errs) :
    Part000.updateInvoice dbFail id fd =
      ([], Outcome.thrown (JsError.zodError errs)) := by
  simp [Part000.updateInvoice, h]

/-- Witness for C4 at the empty form input. -/
theorem updateInvoice_invalid_input_throws_witness :
    Part000.updateInvoice none "inv1" ⟨none, none, none⟩ =
      ([], Outcome.thrown (JsError.zodError ⟨["Please select a customer."],
        ["Please enter an amount greater than $0."],
        ["Please select an invoice status."]⟩)) :=
  updateInvoice_invalid_input_throws none "inv1" ⟨none, none, none⟩ _ (by
    simp +decide [UpdateInvoiceSafeParse, CreateInvoiceSafeParse, formFieldErrors,
      customerIdIssues, amountIssues, statusIssues, coerceNumber])

/-- C5: deleteInvoice of src/unnamed/part_000 throws
"Failed to Delete Invoice" unconditionally: for every identifier its effect
trace is empty — so the DELETE and the cache invalidation never run — and
its outcome is the thrown error, never either return-message branch. -/
theorem deleteInvoice_unconditional_throw (id : String) :
    Part000.deleteInvoice id =
      ([], Outcome.thrown (JsError.plainError "Failed to Delete Invoice")) ∧
    Effect.deleteInvoice id ∉ (Part000.deleteInvoice id).1 ∧
    Effect.revalidatePath "/dashboard/invoices" ∉ (Part000.deleteInvoice id).1 ∧
    ∀ st : State, (Part000.deleteInvoice id).2 ≠ Outcome.ret st := by
  refine ⟨rfl, ?_, ?_, ?_⟩
  · simp [Part000.deleteInvoice]
  · simp [Part000.deleteInvoice]
  · intro st
    simp [Part000.deleteInvoice]

/-- C6: authenticate returns "Invalid credentials." exactly when signIn
raises an AuthError with discriminant CredentialsSignin, returns
"Something went wrong." for an AuthError with any other discriminant, and
re-throws every error that is not an AuthError. -/
theorem authenticate_error_classification (r : Option JsError) :
    (Part000.authenticate r = Outcome.ret (some "Invalid credentials.") ↔
      r = some (JsError.authError "CredentialsSignin")) ∧
    (∀ t : String, t ≠ "CredentialsSignin" →
      Part000.authenticate (some (JsError.authError t)) =
        Outcome.ret (some "Something went wrong.")) ∧
    (∀ e : JsError, (∀ t : String, e ≠ JsError.authError t) →
      Part000.authenticate (some e) = Outcome.thrown e) := by
  refine ⟨?_, ?_, ?_⟩
  · match r with
    | none => simp [Part000.authenticate]
    | some (JsError.zodError errs) => simp [Part000.authenticate]
    | some (JsError.plainError m) => simp [Part000.authenticate]
    | some (JsError.otherError tg) => simp [Part000.authenticate]
    | some (JsError.authError t) =>
        by_cases ht : t = "CredentialsSignin"
        · subst ht
          simp [Part000.authenticate]
        · simp +decide [Part000.authenticate, ht]
  · intro t ht
    simp [Part000.authenticate, ht]
  · intro e he
    match e with
    | JsError.zodError errs => simp [Part000.authenticate]
    | JsError.plainError m => simp [Part000.authenticate]
    | JsError.otherError tg => simp [Part000.authenticate]
    | JsError.authError t => exact absurd rfl (he t)

/-- C7: the UPDATE statement only reassigns customer_id, amount and status of
the matching row: applied to any store, it changes no identifier and no date
of any row (positionally, the id/date projection of the table is fixed). -/
theorem updateInvoice_preserves_id_and_date (customerId : String)
    (amountCents : ℚ) (status : String) (id : String) (freshId : String)
    (store : List InvoiceRow) :
    applyEffect freshId store
        (Effect.updateInvoice customerId amountCents status id) =
      runUpdate customerId amountCents status id store ∧
    (runUpdate customerId amountCents status id store).map
        (fun r => (r.id, r.date)) =
      store.map (fun r => (r.id, r.date)) := by
  refine ⟨rfl, ?_⟩
  induction store with
  | nil => rfl
  | cons r rs ih =>
      simp only [runUpdate, List.map_cons] at ih ⊢
      by_cases h : r.id = id <;> simp [h, ih]

/-- C8 fails as stated: the validator accepts amount "0.005" (it coerces to
1/200, which is greater than 0), yet the persisted value 1/200 · 100 = 1/2
is not an integer count of cents; createInvoice inserts that fractional
value unchanged. -/
theorem amount_not_always_integer_cents :
    CreateInvoiceSafeParse ⟨some "C1", some "0.005", some "pending"⟩ =
      SafeParseResult.success ⟨"C1", (1 : ℚ)/200, "pending"⟩ ∧
    ((Part000.createInvoice none "2024-05-01" ⟨none, none⟩
        ⟨some "C1", some "0.005", some "pending"⟩).1).head? =
      some (Effect.insertInvoice "C1" ((1 : ℚ)/2) "pending" "2024-05-01") ∧
    ¬ ∃ n : ℤ, ((1 : ℚ)/200) * 100 = (n : ℚ) := by
  have h1 : CreateInvoiceSafeParse ⟨some "C1", some "0.005", some "pending"⟩ =
      SafeParseResult.success ⟨"C1", (1 : ℚ)/200, "pending"⟩ := by
    simp +decide [CreateInvoiceSafeParse, coerceNumber, jsNumberOfString,
      trimChars, digitsVal?, isJsSpace]
    norm_num
  refine ⟨h1, ?_, ?_⟩
  · simp [Part000.createInvoice, h1]
    norm_num
  · rintro ⟨n, hn⟩
    have h2 : (1 : ℚ) = 2 * (n : ℚ) := by
      field_simp at hn
      linarith
    have h3 : (1 : ℤ) = 2 * n := by exact_mod_cast h2
    omega

/-- C8 (amended): the dollars-to-cents conversion is the single expression
amount * 100, applied once at the validation boundary: for every accepted
input, the statement createInvoice issues carries amount * 100 as its cents
value, and so does the statement updateInvoice issues; no code path reverses
the conversion. The persisted value is not always an integer count of cents
(the counterexample above): the claim asserts no integrality, and the
program additionally rounds both the coerced amount and the product to
binary64, which this exact-ℚ dataflow statement does not idealise away. -/
theorem amount_conversion_minor_units (dbFail : Option JsError) (today : String)
    (prevState : State) (id : String) (fd : FormData) (data : InvoiceFields)
    (h : CreateInvoiceSafeParse fd = SafeParseResult.success data) :
    ((Part000.createInvoice dbFail today prevState fd).1).head? =
      some (Effect.insertInvoice data.customerId (data.amount * 100)
        data.status today) ∧
    ((Part000.updateInvoice dbFail id fd).1).head? =
      some (Effect.updateInvoice data.customerId (data.amount * 100)
        data.status id) := by
  refine ⟨?_, ?_⟩
  · cases dbFail <;> simp [Part000.createInvoice, h]
  · cases dbFail <;> simp [Part000.updateInvoice, UpdateInvoiceSafeParse, h]

/-- Witness for the amended C8 at the valid sample input: 10.50 persists as
10.50 * 100 = 1050 in both actions (a product that is exact in binary64
too, 10.5 being exactly representable). -/
theorem amount_conversion_minor_units_witness :
    ((Part000.createInvoice none "2024-05-01" ⟨none, none⟩
        ⟨some "C1", some "10.50", some "pending"⟩).1).head? =
      some (Effect.insertInvoice "C1" 1050 "pending" "2024-05-01") ∧
    ((Part000.updateInvoice none "inv1"
        ⟨some "C1", some "10.50", some "pending"⟩).1).head? =
      some (Effect.updateInvoice "C1" 1050 "pending" "inv1") := by
  have h := amount_conversion_minor_units none "2024-05-01" ⟨none, none⟩ "inv1"
      ⟨some "C1", some "10.50", some "pending"⟩ ⟨"C1", (21 : ℚ)/2, "pending"⟩
      CreateInvoiceSafeParse_c1_eval
  have hc : ((21 : ℚ)/2) * 100 = 1050 := by norm_num
  refine ⟨?_, ?_⟩
  · rw [h.1]
    norm_num
  · rw [h.2]
    norm_num

/-- C9: the delete logic (the code below the unconditional throw) always
issues the DELETE for the given identifier first, and that statement removes
exactly the rows whose id equals the identifier: membership in the resulting
store is membership in the old store with a different id, and the result is
a sublist of the old store (all other rows unchanged, in order). -/
theorem deleteInvoice_delete_logic_exact (id : String) (freshId : String)
    (dbFail : Option JsError) (store : List InvoiceRow) :
    ((Part000.deleteInvoiceAfterThrow dbFail id).1).head? =
      some (Effect.deleteInvoice id) ∧
    applyEffect freshId store (Effect.deleteInvoice id) = runDelete id store ∧
    (∀ r : InvoiceRow, r ∈ runDelete id store ↔ (r ∈ store ∧ r.id ≠ id)) ∧
    (runDelete id store).Sublist store := by
  refine ⟨?_, rfl, ?_, ?_⟩
  · cases dbFail <;> rfl
  · intro r
    simp [runDelete, List.mem_filter]
  · exact List.filter_sublist store

/-- C10: the two embeddings of deleteInvoice are not equivalent: the
src/app/lib/actions.ts version issues the DELETE and the revalidation and
returns nothing, the src/unnamed/part_000 version throws with an empty
trace; their effect traces differ for every identifier and every database
behaviour. -/
theorem deleteInvoice_versions_disagree (id : String) :
    AppLib.deleteInvoice none id =
      ([Effect.deleteInvoice id, Effect.revalidatePath "/dashboard/invoices"],
       Outcome.ret ()) ∧
    Part000.deleteInvoice id =
      ([], Outcome.thrown (JsError.plainError "Failed to Delete Invoice")) ∧
    ∀ dbFail : Option JsError,
      (AppLib.deleteInvoice dbFail id).1 ≠ (Part000.deleteInvoice id).1 := by
  refine ⟨rfl, rfl, ?_⟩
  intro dbFail
  cases dbFail <;> simp [AppLib.deleteInvoice, Part000.deleteInvoice]
